import Mathlib

/-!
# BluetoothLink: chunked writes, session teardown and device scanning

A shallow embedding of `src/comm/BluetoothLink.h` and `src/comm/BluetoothLink.cc`
(address-based build, i.e. `__ios__` undefined).

* Pointers to native Qt objects (`_bleController`, `_bleService`, `_targetSocket`,
  `_deviceDiscover`) are `Option` handles, `none` being `nullptr`.
* A member function becomes a function from the object's state to its new state and
  the list of observable effects it produces, in program order: the Qt signals it
  emits and the calls it makes on native objects. `qDebug`/`qWarning` output is not
  recorded.
* A member call through a null pointer has no defined outcome; such a function
  returns `none` there.
* Answers of the native layer read by a function (the return value of a socket
  write, the service error state polled after a characteristic write, ...) are
  arguments of the function.
* `QByteArray` is a list of bytes. Its size is bounded by `QByteArray`'s maximal size,
  which is more than `CHUNK_SIZE` below `2^31`, so the `int` counter `sentBytes` of
  `bleWriteData` never wraps and is a natural number here.
-/

/-- A byte array, `QByteArray`. -/
abbrev QByteArray := List UInt8

/-- The call `QByteArray::mid(pos, len)`: at most `len` bytes starting at `pos`. -/
def QByteArray.mid (data : QByteArray) (pos len : Nat) : QByteArray :=
  (data.drop pos).take len

/-- The value of a hexadecimal digit, `none` for any other character. -/
def QByteArray.hexDigit (c : Char) : Option Nat :=
  if 48 ≤ c.toNat ∧ c.toNat ≤ 57 then some (c.toNat - 48)
  else if 97 ≤ c.toNat ∧ c.toNat ≤ 102 then some (c.toNat - 87)
  else if 65 ≤ c.toNat ∧ c.toNat ≤ 70 then some (c.toNat - 55)
  else none

/-- Pairs up nibbles given from the last one backwards, as `QByteArray::fromHex` does. -/
def QByteArray.fromHexAux : List Nat → QByteArray
  | lo :: hi :: rest => fromHexAux rest ++ [UInt8.ofNat (hi * 16 + lo)]
  | [lo] => [UInt8.ofNat lo]
  | [] => []

/-- The call `QByteArray::fromHex(text)`: characters that are not hexadecimal digits are
skipped, and the digits are paired from the end of the text. -/
def QByteArray.fromHex (text : String) : QByteArray :=
  QByteArray.fromHexAux (text.data.filterMap QByteArray.hexDigit).reverse

/-- The constructor `QByteArray(const char*)`: the bytes of the characters of the text. -/
def QByteArray.ofText (text : String) : QByteArray :=
  text.data.map (fun c => UInt8.ofNat c.toNat)

/-- The call `QString::contains(pat)` (case sensitive): `pat` occurs as a substring. -/
def QString.contains (s pat : String) : Bool :=
  s.data.tails.any (fun t => pat.data.isPrefixOf t)

/-- The macro `CHUNK_SIZE` of `BluetoothLink.h`. -/
def CHUNK_SIZE : Nat := 20

/-! ## Data model -/

/-- The class `BluetoothData` (address-based build). -/
structure BluetoothData where
  name : String
  address : String
  isBle : Bool
  deriving DecidableEq, Repr

namespace BluetoothData

/-- The member `operator==`: name and address are compared, `isBle` is not. -/
def operatorEq (self other : BluetoothData) : Bool :=
  self.name == other.name && self.address == other.address

/-- The member `operator=`: name and address are assigned, `isBle` is left as it is. -/
def assign (self other : BluetoothData) : BluetoothData :=
  { self with name := other.name, address := other.address }

/-- The copy constructor `BluetoothData(const BluetoothData&)`, which is `*this = other`
on a fresh object; `isBle` of the fresh object is never written and keeps the
indeterminate value `uninit`. -/
def copy (other : BluetoothData) (uninit : Bool) : BluetoothData :=
  assign { name := "", address := "", isBle := uninit } other

end BluetoothData

/-- What `deviceDiscovered` reads of a `QBluetoothDeviceInfo`. -/
structure QBluetoothDeviceInfo where
  name : String
  /-- The text `address().toString()`. -/
  address : String
  isValid : Bool
  /-- The flags `coreConfigurations()`; bit `0x01` is `LowEnergyCoreConfiguration`. -/
  coreConfigurations : Nat
  deriving DecidableEq, Repr

/-- The flag `QBluetoothDeviceInfo::LowEnergyCoreConfiguration`. -/
def LowEnergyCoreConfiguration : Nat := 0x01

/-- A `QLowEnergyDescriptor` value: its validity and the attribute it refers to. -/
structure QLowEnergyDescriptor where
  isValid : Bool
  handle : Nat
  deriving DecidableEq, Repr

/-- A `QLowEnergyCharacteristic` value as looked up in a service: its validity and its
client-characteristic-configuration descriptor. -/
structure QLowEnergyCharacteristic where
  isValid : Bool
  clientCharacteristicConfiguration : QLowEnergyDescriptor
  deriving DecidableEq, Repr

/-- A live `QLowEnergyController`, created for a remote device. -/
structure QLowEnergyController where
  remoteAddress : String
  remoteName : String
  deriving DecidableEq, Repr

/-- A live `QLowEnergyService` object. -/
structure QLowEnergyService where
  serviceUuid : String
  deriving DecidableEq, Repr

/-- A live `QBluetoothSocket`; `readyReadConnected` records whether its `readyRead`
signal is still connected to `BluetoothLink::readBytes`. -/
structure QBluetoothSocket where
  readyReadConnected : Bool
  deriving DecidableEq, Repr

/-- The macro `UARTSERVICEUUID`. -/
def UARTSERVICEUUID : String := "0000ffe0-0000-1000-8000-00805f9b34fb"

/-- The macro `RXTXUUID`. -/
def RXTXUUID : String := "0000FFE1-0000-1000-8000-00805F9B34FB"

/-- The states of `QLowEnergyService::ServiceState`. -/
inductive ServiceState where
  | InvalidService
  | DiscoveryRequired
  | DiscoveringServices
  | ServiceDiscovered
  | LocalService
  deriving DecidableEq, Repr

/-- The Qt signals of `BluetoothLink` (declared in `LinkInterface`). -/
inductive Signal where
  | connected
  | disconnected
  | bytesSent (bytes : QByteArray)
  | bytesReceived (bytes : QByteArray)
  | communicationError (title : String) (error : String)
  deriving DecidableEq, Repr

/-- The calls `BluetoothLink` makes on native Bluetooth objects. `writeCharacteristic`
is always made on the characteristic `RXTXUUID` of `_bleService`, in mode
`WriteWithoutResponse`. -/
inductive NativeCall where
  | createCentral (address : String) (name : String)
  | connectToDevice
  | disconnectFromDevice
  | deleteController
  | discoverServices
  | createServiceObject (uuid : String)
  | discoverDetails
  | deleteService
  | writeCharacteristic (data : QByteArray)
  | writeDescriptor (descriptor : QLowEnergyDescriptor) (data : QByteArray)
  | newSocket
  | connectToService (address : String)
  | socketWrite (data : QByteArray)
  | socketRead (size : Nat)
  | disconnectReadyRead
  | deleteSocket
  | socketDeleteLater
  deriving DecidableEq, Repr

/-- An observable effect of a member function of `BluetoothLink`. -/
inductive Effect where
  | emit (s : Signal)
  | call (c : NativeCall)
  deriving DecidableEq, Repr

/-- The data members of `BluetoothLink` (address-based build). -/
structure BluetoothLink where
  _bleController : Option QLowEnergyController
  _bleService : Option QLowEnergyService
  _notificationDescTx : QLowEnergyDescriptor
  _isUartFound : Bool
  _targetSocket : Option QBluetoothSocket
  _shutDown : Bool
  _connectState : Bool
  deriving DecidableEq, Repr

namespace BluetoothLink

/-- The link right after construction: the default member initialisers of the class;
a default-constructed `QLowEnergyDescriptor` is invalid. -/
def init : BluetoothLink :=
  { _bleController := none
    _bleService := none
    _notificationDescTx := { isValid := false, handle := 0 }
    _isUartFound := false
    _targetSocket := none
    _shutDown := false
    _connectState := false }

/-- The accessor `isConnected`. -/
def isConnected (self : BluetoothLink) : Bool := self._connectState

/-- The `while` loop of `bleWriteData`, entered with the current value of `sentBytes`.
`issued` counts the characteristic writes already made by this call, and
`serviceError k` tells whether `_bleService->error() != NoError` when polled after the
`k`-th write. The result is the list of writes made from here on. -/
def bleWriteLoop (data : QByteArray) (serviceError : Nat → Bool)
    (sentBytes issued : Nat) : List Effect :=
  if sentBytes < data.length then
    let w := Effect.call (.writeCharacteristic (data.mid sentBytes CHUNK_SIZE))
    if serviceError (issued + 1) then
      [w]
    else
      w :: bleWriteLoop data serviceError (sentBytes + CHUNK_SIZE) (issued + 1)
  else
    []
termination_by data.length - sentBytes
decreasing_by
  simp only [CHUNK_SIZE]
  omega

/-- The function `bleWriteData`. It first calls `_bleService->characteristic(..)`, a
member call through `_bleService`. -/
def bleWriteData (self : BluetoothLink) (data : QByteArray)
    (serviceError : Nat → Bool) : Option (List Effect) :=
  match self._bleService with
  | none => none
  | some _ =>
    if self._connectState then
      if data.length > CHUNK_SIZE then
        some (bleWriteLoop data serviceError 0 0)
      else
        some [Effect.call (.writeCharacteristic data)]
    else
      some []

/-- The slot `_writeBytes`; `socketWriteResult` is what `_targetSocket->write(bytes)`
returns. -/
def _writeBytes (self : BluetoothLink) (bytes : QByteArray)
    (serviceError : Nat → Bool) (socketWriteResult : Int) : Option (List Effect) :=
  let ble : Option (List Effect) :=
    if self._bleController.isSome then
      (bleWriteData self bytes serviceError).map
        (fun ws => ws ++ [Effect.emit (.bytesSent bytes)])
    else
      some []
  let classic : List Effect :=
    if self._targetSocket.isSome then
      Effect.call (.socketWrite bytes) ::
        (if socketWriteResult > 0 then [Effect.emit (.bytesSent bytes)] else [])
    else
      []
  ble.map (fun es => es ++ classic)

end BluetoothLink

namespace BluetoothLink

/-- The function `createBleController`. -/
def createBleController (self : BluetoothLink) (device : BluetoothData) :
    BluetoothLink × List Effect :=
  let teardown : List Effect :=
    if self._bleController.isSome then
      [Effect.call .disconnectFromDevice, Effect.call .deleteController]
    else
      []
  ({ self with
      _bleController := some { remoteAddress := device.address, remoteName := device.name } },
    teardown ++
      [Effect.call (.createCentral device.address device.name), Effect.call .connectToDevice])

/-- The slot `bleServiceDiscovered`; `newService` is the discovered UUID in the textual
form of `QBluetoothUuid::toString` without braces. -/
def bleServiceDiscovered (self : BluetoothLink) (newService : String) :
    BluetoothLink × List Effect :=
  if newService = UARTSERVICEUUID then
    ({ self with _isUartFound := true }, [])
  else
    (self, [])

/-- The slot `bleServiceDiscoveryFinished`; `created` is what
`_bleController->createServiceObject(..)` returns, read only when `_isUartFound`. -/
def bleServiceDiscoveryFinished (self : BluetoothLink) (created : Option QLowEnergyService) :
    Option (BluetoothLink × List Effect) :=
  let e1 : List Effect := if self._bleService.isSome then [Effect.call .deleteService] else []
  let s1 : BluetoothLink := { self with _bleService := none }
  let afterCreate : Option (BluetoothLink × List Effect) :=
    if s1._isUartFound then
      match s1._bleController with
      | none => none
      | some _ =>
        some ({ s1 with _bleService := created },
          e1 ++ [Effect.call (.createServiceObject UARTSERVICEUUID)])
    else
      some (s1, e1)
  afterCreate.map (fun r =>
    if r.1._bleService.isSome then (r.1, r.2 ++ [Effect.call .discoverDetails]) else r)

/-- The slot `bleErrorOccured`; the message is `"Device error: " + QString(error)`, the
enumerator `error` being turned into the character with that code. -/
def bleErrorOccured (self : BluetoothLink) (error : Nat) : BluetoothLink × List Effect :=
  ({ self with _connectState := false },
    [Effect.emit (.communicationError "Bluetooth Link Error"
      ("Device error: " ++ String.singleton (Char.ofNat error)))])

/-- The slot `bleStateChanged`, which only logs. -/
def bleStateChanged (self : BluetoothLink) : BluetoothLink × List Effect :=
  (self, [])

/-- The slot `bleConnected`, a member call through `_bleController`. -/
def bleConnected (self : BluetoothLink) : Option (BluetoothLink × List Effect) :=
  match self._bleController with
  | none => none
  | some _ => some (self, [Effect.call .discoverServices])

/-- The slot `bleDisconnected`. -/
def bleDisconnected (self : BluetoothLink) : BluetoothLink × List Effect :=
  if self._bleController.isSome then
    ({ self with _bleController := none },
      [Effect.call .disconnectFromDevice, Effect.call .deleteController,
        Effect.emit .disconnected])
  else
    (self, [Effect.emit .disconnected])

/-- The slot `bleServiceStateChanged`; `ch` is the characteristic that
`_bleService->characteristic(RXTXUUID)` returns, looked up only in the state
`ServiceDiscovered`. -/
def bleServiceStateChanged (self : BluetoothLink) (newState : ServiceState)
    (ch : QLowEnergyCharacteristic) : Option (BluetoothLink × List Effect) :=
  match newState with
  | .ServiceDiscovered =>
    match self._bleService with
    | none => none
    | some _ =>
      if !ch.isValid then
        some (self, [])
      else
        let desc := ch.clientCharacteristicConfiguration
        let e1 : List Effect :=
          if desc.isValid then
            [Effect.call (.writeDescriptor desc (QByteArray.fromHex "0100"))]
          else
            []
        some ({ self with _notificationDescTx := desc, _connectState := true },
          e1 ++ [Effect.emit .connected])
  | _ => some (self, [])

/-- The slot `bleReceiveData`. -/
def bleReceiveData (self : BluetoothLink) (newValue : QByteArray) :
    BluetoothLink × List Effect :=
  (self, [Effect.emit (.bytesReceived newValue)])

/-- The slot `confirmedDescriptorWrite`. The teardown starts with a member call through
`_bleController`. -/
def confirmedDescriptorWrite (self : BluetoothLink) (descriptor : QLowEnergyDescriptor)
    (newValue : QByteArray) : Option (BluetoothLink × List Effect) :=
  if descriptor.isValid && descriptor == self._notificationDescTx then
    if newValue = QByteArray.ofText "0000" then
      match self._bleController with
      | none => none
      | some _ =>
        some ({ self with _bleService := none, _bleController := none },
          [Effect.call .disconnectFromDevice] ++
            (if self._bleService.isSome then [Effect.call .deleteService] else []) ++
            [Effect.call .deleteController])
    else
      some (self, [])
  else
    some (self, [])

/-- The `while` loop of `readBytes`; `pending` lists what the socket holds at each
successive poll of `bytesAvailable()`, an exhausted list meaning nothing is available. -/
def readLoop : List QByteArray → List Effect
  | [] => []
  | datagram :: rest =>
    if datagram.length > 0 then
      Effect.call (.socketRead datagram.length) :: Effect.emit (.bytesReceived datagram) ::
        readLoop rest
    else
      []

/-- The slot `readBytes`. -/
def readBytes (self : BluetoothLink) (pending : List QByteArray) :
    BluetoothLink × List Effect :=
  if self._targetSocket.isSome then (self, readLoop pending) else (self, [])

/-- The function `disconnect` (address-based build). -/
def disconnect (self : BluetoothLink) : BluetoothLink × List Effect :=
  let e1 : List Effect :=
    if self._targetSocket.isSome then
      [Effect.call .disconnectReadyRead, Effect.call .socketDeleteLater,
        Effect.emit .disconnected]
    else
      []
  let s1 : BluetoothLink := { self with _targetSocket := none }
  let e2 : List Effect :=
    if s1._bleController.isSome then
      [Effect.call .disconnectFromDevice] ++
        (if s1._bleService.isSome then [Effect.call .deleteService] else []) ++
        [Effect.call .deleteController]
    else
      []
  let s2 : BluetoothLink :=
    if s1._bleController.isSome then
      { s1 with _bleService := none, _bleController := none }
    else
      s1
  ({ s2 with _connectState := false }, e1 ++ e2)

/-- The function `_createSocket`. -/
def _createSocket (self : BluetoothLink) : BluetoothLink × List Effect :=
  let e1 : List Effect := if self._targetSocket.isSome then [Effect.call .deleteSocket] else []
  ({ self with _targetSocket := some { readyReadConnected := true } },
    e1 ++ [Effect.call .newSocket])

/-- The function `_hardwareConnect` (address-based build); `device` is the descriptor
`_config->device()`. It always returns `true`. -/
def _hardwareConnect (self : BluetoothLink) (device : BluetoothData) :
    BluetoothLink × List Effect :=
  let isBle := QString.contains device.name "(BLE)"
  if isBle then
    createBleController self device
  else
    let r := _createSocket self
    (r.1, r.2 ++ [Effect.call (.connectToService device.address)])

/-- The function `_connect`, which always returns `true`. -/
def _connect (self : BluetoothLink) (device : BluetoothData) : BluetoothLink × List Effect :=
  _hardwareConnect self device

/-- The slot `deviceConnected`. -/
def deviceConnected (self : BluetoothLink) : BluetoothLink × List Effect :=
  ({ self with _connectState := true }, [Effect.emit .connected])

/-- The slot `deviceDisconnected`. -/
def deviceDisconnected (self : BluetoothLink) : BluetoothLink × List Effect :=
  ({ self with _connectState := false }, [])

/-- The slot `deviceError`; `errorString` is what `_targetSocket->errorString()`
returns, a member call through `_targetSocket`. -/
def deviceError (self : BluetoothLink) (errorString : String) :
    Option (BluetoothLink × List Effect) :=
  match self._targetSocket with
  | none => none
  | some _ =>
    some ({ self with _connectState := false },
      [Effect.emit (.communicationError "Bluetooth Link Error" errorString)])

end BluetoothLink

/-! ## The operations of a link as events -/

/-- A call of a public operation of a link, or the delivery of a native signal to one of
its slots, together with the answers of the native layer the operation reads. -/
inductive LinkEvent where
  | connect (device : BluetoothData)
  | disconnect
  | write (bytes : QByteArray) (serviceError : Nat → Bool) (socketWriteResult : Int)
  | bleServiceDiscovered (newService : String)
  | bleServiceDiscoveryFinished (created : Option QLowEnergyService)
  | bleErrorOccured (error : Nat)
  | bleStateChanged
  | bleConnected
  | bleDisconnected
  | bleServiceStateChanged (newState : ServiceState) (ch : QLowEnergyCharacteristic)
  | bleReceiveData (newValue : QByteArray)
  | confirmedDescriptorWrite (descriptor : QLowEnergyDescriptor) (newValue : QByteArray)
  | readBytes (pending : List QByteArray)
  | deviceConnected
  | deviceDisconnected
  | deviceError (errorString : String)

namespace BluetoothLink

/-- One event on a link: the new state and the effects, `none` when the operation goes
through a null pointer. -/
def step (self : BluetoothLink) : LinkEvent → Option (BluetoothLink × List Effect)
  | .connect device => some (_connect self device)
  | .disconnect => some (disconnect self)
  | .write bytes serviceError socketWriteResult =>
    (_writeBytes self bytes serviceError socketWriteResult).map (fun es => (self, es))
  | .bleServiceDiscovered newService => some (bleServiceDiscovered self newService)
  | .bleServiceDiscoveryFinished created => bleServiceDiscoveryFinished self created
  | .bleErrorOccured error => some (bleErrorOccured self error)
  | .bleStateChanged => some (bleStateChanged self)
  | .bleConnected => bleConnected self
  | .bleDisconnected => some (bleDisconnected self)
  | .bleServiceStateChanged newState ch => bleServiceStateChanged self newState ch
  | .bleReceiveData newValue => some (bleReceiveData self newValue)
  | .confirmedDescriptorWrite descriptor newValue =>
    confirmedDescriptorWrite self descriptor newValue
  | .readBytes pending => some (readBytes self pending)
  | .deviceConnected => some (deviceConnected self)
  | .deviceDisconnected => some (deviceDisconnected self)
  | .deviceError errorString => deviceError self errorString

/-- A sequence of events on a link, one delivered at a time: the final state, `none` when
one of them goes through a null pointer. -/
def run (self : BluetoothLink) : List LinkEvent → Option BluetoothLink
  | [] => some self
  | ev :: rest =>
    match step self ev with
    | none => none
    | some r => run r.1 rest

/-- Whether a `connect` leaves the session of the other transport alone only because
there is none: a connect to a descriptor named as BLE is admitted when no classic socket
is alive, a connect to any other descriptor when no BLE controller is alive. Every other
event is admitted. -/
def connectAdmitted (self : BluetoothLink) : LinkEvent → Bool
  | .connect device =>
    if QString.contains device.name "(BLE)" then self._targetSocket.isNone
    else self._bleController.isNone
  | _ => true

/-- The events of a sequence are all admitted in the state they are delivered in. -/
def runAdmitted (self : BluetoothLink) : List LinkEvent → Bool
  | [] => true
  | ev :: rest =>
    connectAdmitted self ev &&
      match step self ev with
      | none => true
      | some r => runAdmitted r.1 rest

/-- The link is Ready on a BLE session: controller and service handle alive, no classic
socket, and `_connectState` set. -/
def BleReady (self : BluetoothLink) : Prop :=
  self._bleController.isSome = true ∧ self._bleService.isSome = true ∧
    self._targetSocket = none ∧ self._connectState = true

/-- The link is Ready on a classic session: socket alive, no BLE controller, and
`_connectState` set. -/
def ClassicReady (self : BluetoothLink) : Prop :=
  self._targetSocket.isSome = true ∧ self._bleController = none ∧
    self._connectState = true

instance (self : BluetoothLink) : Decidable (BleReady self) := by
  unfold BleReady; infer_instance

instance (self : BluetoothLink) : Decidable (ClassicReady self) := by
  unfold ClassicReady; infer_instance

end BluetoothLink

/-! ## Reading a trace -/

/-- The payloads of the characteristic writes of a trace, in issue order. -/
def characteristicWrites : List Effect → List QByteArray
  | [] => []
  | Effect.call (.writeCharacteristic data) :: rest => data :: characteristicWrites rest
  | _ :: rest => characteristicWrites rest

/-- The payloads of the socket writes of a trace, in issue order. -/
def socketWrites : List Effect → List QByteArray
  | [] => []
  | Effect.call (.socketWrite data) :: rest => data :: socketWrites rest
  | _ :: rest => socketWrites rest

/-- The signals emitted in a trace, in order. -/
def emitted : List Effect → List Signal
  | [] => []
  | Effect.emit s :: rest => s :: emitted rest
  | _ :: rest => emitted rest

/-- The native calls made in a trace, in order. -/
def nativeCalls : List Effect → List NativeCall
  | [] => []
  | Effect.call c :: rest => c :: nativeCalls rest
  | _ :: rest => nativeCalls rest

/-- The payloads of the `bytesSent` signals of a trace. -/
def bytesSentEvents : List Effect → List QByteArray
  | [] => []
  | Effect.emit (.bytesSent bytes) :: rest => bytes :: bytesSentEvents rest
  | _ :: rest => bytesSentEvents rest

/-- The number of `disconnected` signals of a trace. -/
def disconnectedCount (es : List Effect) : Nat :=
  (emitted es).count Signal.disconnected

/-- Whether a trace creates a BLE controller. -/
def createsBleController (es : List Effect) : Bool :=
  es.any (fun e => match e with
    | Effect.call (.createCentral _ _) => true
    | _ => false)

/-- Whether a trace opens a classic socket. -/
def opensClassicSocket (es : List Effect) : Bool :=
  es.any (fun e => match e with
    | Effect.call .newSocket => true
    | Effect.call (.connectToService _) => true
    | _ => false)

/-- Whether a trace emits a `communicationError` signal. -/
def emitsCommunicationError (es : List Effect) : Bool :=
  es.any (fun e => match e with
    | Effect.emit (.communicationError _ _) => true
    | _ => false)

/-! ## The scanner: `BluetoothConfiguration` -/

/-- The signals of `BluetoothConfiguration`. -/
inductive ConfigSignal where
  | devNameChanged
  | addressChanged
  | nameListChanged
  | scanningChanged
  deriving DecidableEq, Repr

/-- The calls `BluetoothConfiguration` makes on its `QBluetoothDeviceDiscoveryAgent`. -/
inductive AgentCall where
  | create
  | stop
  | deleteLater
  | setInquiryType
  | start
  deriving DecidableEq, Repr

/-- An observable effect of a member function of `BluetoothConfiguration`. -/
inductive ConfigEffect where
  | emit (s : ConfigSignal)
  | call (c : AgentCall)
  deriving DecidableEq, Repr

/-- A live `QBluetoothDeviceDiscoveryAgent`. -/
structure QBluetoothDeviceDiscoveryAgent where
  deriving DecidableEq, Repr

/-- The data members of `BluetoothConfiguration`. -/
structure BluetoothConfiguration where
  _deviceDiscover : Option QBluetoothDeviceDiscoveryAgent
  _device : BluetoothData
  _nameList : List String
  _deviceList : List BluetoothData
  deriving DecidableEq, Repr

/-- The call `QList<BluetoothData>::contains`, which compares with `operator==`. -/
def QList.contains (list : List BluetoothData) (data : BluetoothData) : Bool :=
  list.any (fun d => d.operatorEq data)

namespace BluetoothConfiguration

/-- The configuration built by `BluetoothConfiguration(const QString& name)`: empty
lists, no discovery agent, and a default-constructed `_device` whose `isBle` is the
indeterminate value `uninit`. -/
def init (uninit : Bool) : BluetoothConfiguration :=
  { _deviceDiscover := none
    _device := { name := "", address := "", isBle := uninit }
    _nameList := []
    _deviceList := [] }

/-- The accessor `scanning`. -/
def scanning (self : BluetoothConfiguration) : Bool := self._deviceDiscover.isSome

/-- The accessor `devName`. -/
def devName (self : BluetoothConfiguration) : String := self._device.name

/-- The function `stopScan`. -/
def stopScan (self : BluetoothConfiguration) : BluetoothConfiguration × List ConfigEffect :=
  if self._deviceDiscover.isSome then
    ({ self with _deviceDiscover := none },
      [ConfigEffect.call .stop, ConfigEffect.call .deleteLater,
        ConfigEffect.emit .scanningChanged])
  else
    (self, [])

/-- The function `startScan`. -/
def startScan (self : BluetoothConfiguration) : BluetoothConfiguration × List ConfigEffect :=
  let e1 : List ConfigEffect :=
    if self._deviceDiscover.isSome then
      [ConfigEffect.call .stop]
    else
      [ConfigEffect.call .create, ConfigEffect.emit .scanningChanged]
  ({ self with
      _deviceDiscover := some (self._deviceDiscover.getD {})
      _nameList := []
      _deviceList := [] },
    e1 ++ [ConfigEffect.emit .nameListChanged, ConfigEffect.call .setInquiryType,
      ConfigEffect.call .start])

/-- The slot `deviceDiscovered`; `uninit` is the indeterminate `isBle` of the copy of
`data` that `_deviceList += data` stores. -/
def deviceDiscovered (self : BluetoothConfiguration) (info : QBluetoothDeviceInfo)
    (uninit : Bool) : BluetoothConfiguration × List ConfigEffect :=
  if !info.name.isEmpty && info.isValid then
    let isBle : Bool := (info.coreConfigurations &&& LowEnergyCoreConfiguration) != 0
    let data : BluetoothData :=
      { isBle := isBle
        name := info.name ++ (if isBle then " (BLE)" else "")
        address := info.address }
    if !QList.contains self._deviceList data then
      ({ self with
          _deviceList := self._deviceList ++ [data.copy uninit]
          _nameList := self._nameList ++ [data.name] },
        [ConfigEffect.emit .nameListChanged])
    else
      (self, [])
  else
    (self, [])

/-- The slot `doneScanning`. -/
def doneScanning (self : BluetoothConfiguration) :
    BluetoothConfiguration × List ConfigEffect :=
  if self._deviceDiscover.isSome then
    ({ self with _deviceDiscover := none },
      [ConfigEffect.call .deleteLater, ConfigEffect.emit .scanningChanged])
  else
    (self, [])

/-- The range-`for` loop of `setDevName` over the rest of `_deviceList`. -/
def setDevNameLoop (self : BluetoothConfiguration) (name : String) :
    List BluetoothData → BluetoothConfiguration × List ConfigEffect
  | [] => (self, [])
  | data :: rest =>
    if data.name = name then
      ({ self with _device := self._device.assign data },
        [ConfigEffect.emit .devNameChanged, ConfigEffect.emit .addressChanged])
    else
      setDevNameLoop self name rest

/-- The function `setDevName`. -/
def setDevName (self : BluetoothConfiguration) (name : String) :
    BluetoothConfiguration × List ConfigEffect :=
  setDevNameLoop self name self._deviceList

end BluetoothConfiguration

/-- A call of an operation of the scanner or the delivery of a discovery signal. -/
inductive ScanEvent where
  | startScan
  | stopScan
  | doneScanning
  | deviceDiscovered (info : QBluetoothDeviceInfo) (uninit : Bool)
  deriving DecidableEq, Repr

namespace BluetoothConfiguration

/-- One event on the scanner. -/
def step (self : BluetoothConfiguration) : ScanEvent → BluetoothConfiguration × List ConfigEffect
  | .startScan => startScan self
  | .stopScan => stopScan self
  | .doneScanning => doneScanning self
  | .deviceDiscovered info uninit => deviceDiscovered self info uninit

/-- A sequence of events on the scanner: the final state. -/
def run (self : BluetoothConfiguration) : List ScanEvent → BluetoothConfiguration
  | [] => self
  | ev :: rest => run (step self ev).1 rest

end BluetoothConfiguration

/-! ## Concrete links, payloads and descriptors -/

namespace BluetoothLink

/-- A link that is Ready on a BLE session. -/
def bleReadyLink : BluetoothLink :=
  { _bleController := some { remoteAddress := "AA:BB:CC", remoteName := "Drone-A (BLE)" }
    _bleService := some { serviceUuid := UARTSERVICEUUID }
    _notificationDescTx := { isValid := true, handle := 1 }
    _isUartFound := true
    _targetSocket := none
    _shutDown := false
    _connectState := true }

/-- A link that is Ready on a classic session. -/
def classicReadyLink : BluetoothLink :=
  { init with _targetSocket := some { readyReadConnected := true }, _connectState := true }

/-- A service error oracle that never reports an error. -/
def noServiceError : Nat → Bool := fun _ => false

/-- A service error oracle by which the second characteristic write of a call is the
first, and only, to report an error. -/
def errorAtSecondWrite : Nat → Bool := fun k => k == 2

end BluetoothLink

/-- A descriptor named as a BLE device whose `isBle` flag is not set. -/
def namedBleFlagClear : BluetoothData :=
  { name := "Drone-A (BLE)", address := "AA:BB:CC", isBle := false }

/-- A descriptor with the `isBle` flag set whose name has no BLE suffix. -/
def plainNameFlagSet : BluetoothData :=
  { name := "Drone-A", address := "AA:BB:CC", isBle := true }

/-- The descriptor of a classic device. -/
def classicDevice : BluetoothData :=
  { name := "Drone-A", address := "AA:BB:CC", isBle := false }

/-- The descriptor of a BLE device as the scanner names it. -/
def bleDevice : BluetoothData :=
  { name := "Drone-A (BLE)", address := "AA:BB:CC", isBle := true }

namespace BluetoothLink

/-- A BLE session after a controller error: handles alive, `_connectState` cleared. -/
def bleErrorLink : BluetoothLink := (bleReadyLink.bleErrorOccured 1).1

/-- A BLE session right after `connect`: controller alive, no service handle yet. -/
def bleConnectingLink : BluetoothLink := (init._connect bleDevice).1

/-- A classic session right after `connect`: socket alive, not yet connected. -/
def classicConnectingLink : BluetoothLink := (init._connect classicDevice).1

/-- A BLE session whose controller has connected and reported the serial-emulation
service: controller alive, `_isUartFound` set, no service handle yet. -/
def bleUartFoundLink : BluetoothLink :=
  (bleConnectingLink.bleServiceDiscovered UARTSERVICEUUID).1

/-- The 2-byte value that disables notifications, `0x00 0x00`. -/
def disablePattern : QByteArray := [0x00, 0x00]

end BluetoothLink

/-- A payload of 45 bytes, `0, 1, .., 44`. -/
def payload45 : QByteArray := (List.range 45).map UInt8.ofNat

/-- Two connects in a row on one link, the first to a classic descriptor, the second to a
BLE descriptor, with no disconnect in between. -/
def connectClassicThenBle : List LinkEvent :=
  [.connect classicDevice, .connect bleDevice]

/-- A classic session from connect to disconnect, followed by a BLE session that is
brought up to Ready and written to. -/
def classicThenBleSession : List LinkEvent :=
  [.connect classicDevice, .deviceConnected,
    .write payload45 BluetoothLink.noServiceError 45, .readBytes [[1, 2], [3]],
    .disconnect,
    .connect bleDevice, .bleStateChanged, .bleConnected,
    .bleServiceDiscovered UARTSERVICEUUID, .bleServiceDiscoveryFinished (some ⟨UARTSERVICEUUID⟩),
    .bleServiceStateChanged .ServiceDiscovered ⟨true, ⟨true, 1⟩⟩,
    .confirmedDescriptorWrite ⟨true, 1⟩ (QByteArray.fromHex "0100"),
    .bleReceiveData [7]]

/-- A scan in which the same physical radio is reported as a classic device, as a BLE
device, and as the classic device a second time; an entry without a name comes last. -/
def scanReportingTwice : List ScanEvent :=
  [.startScan,
    .deviceDiscovered ⟨"Drone-A", "AA:BB:CC", true, 0x02⟩ false,
    .deviceDiscovered ⟨"Drone-A", "AA:BB:CC", true, 0x01⟩ false,
    .deviceDiscovered ⟨"Drone-A", "AA:BB:CC", true, 0x02⟩ true,
    .deviceDiscovered ⟨"", "AA:BB:CD", true, 0x02⟩ true,
    .doneScanning]

/-- The scanner after `scanReportingTwice`, with `"Drone-A"` selected. -/
def BluetoothConfiguration.scanned : BluetoothConfiguration :=
  (((BluetoothConfiguration.init false).run scanReportingTwice).setDevName "Drone-A").1

/-! ## Lemmas on the write path -/

theorem QByteArray.length_mid (data : QByteArray) (pos len : Nat) :
    (data.mid pos len).length = min len (data.length - pos) := by
  simp [QByteArray.mid]

theorem characteristicWrites_append (xs ys : List Effect) :
    characteristicWrites (xs ++ ys) = characteristicWrites xs ++ characteristicWrites ys := by
  induction xs with
  | nil => rfl
  | cons e rest ih =>
    rcases e with s | c
    · simpa [characteristicWrites] using ih
    · cases c <;> simpa [characteristicWrites] using ih

theorem bytesSentEvents_append (xs ys : List Effect) :
    bytesSentEvents (xs ++ ys) = bytesSentEvents xs ++ bytesSentEvents ys := by
  induction xs with
  | nil => rfl
  | cons e rest ih =>
    rcases e with s | c
    · cases s <;> simpa [bytesSentEvents] using ih
    · simpa [bytesSentEvents] using ih

theorem characteristicWrites_map_write (chunks : List QByteArray) :
    characteristicWrites (chunks.map (fun c => Effect.call (.writeCharacteristic c))) =
      chunks := by
  induction chunks with
  | nil => rfl
  | cons c rest ih => simp [characteristicWrites, ih]

theorem bytesSentEvents_map_write (chunks : List QByteArray) :
    bytesSentEvents (chunks.map (fun c => Effect.call (.writeCharacteristic c))) = [] := by
  induction chunks with
  | nil => rfl
  | cons c rest ih => simp [bytesSentEvents, ih]

theorem emitted_append (xs ys : List Effect) :
    emitted (xs ++ ys) = emitted xs ++ emitted ys := by
  induction xs with
  | nil => rfl
  | cons e rest ih =>
    rcases e with s | c
    · simpa [emitted] using ih
    · simpa [emitted] using ih

theorem emitted_map_write (chunks : List QByteArray) :
    emitted (chunks.map (fun c => Effect.call (.writeCharacteristic c))) = [] := by
  induction chunks with
  | nil => rfl
  | cons c rest ih => simp [emitted, ih]

/-- With no service error the loop of `bleWriteData` issues the consecutive chunks of the
rest of the payload. -/
theorem BluetoothLink.bleWriteLoop_noError (data : QByteArray) (err : Nat → Bool)
    (h : ∀ k, err k = false) (s i : Nat) :
    BluetoothLink.bleWriteLoop data err s i =
      ((List.range ((data.length - s + (CHUNK_SIZE - 1)) / CHUNK_SIZE)).map
        (fun j => data.mid (s + j * CHUNK_SIZE) CHUNK_SIZE)).map
        (fun c => Effect.call (.writeCharacteristic c)) := by
  induction s, i using BluetoothLink.bleWriteLoop.induct data err with
  | case1 s i hlt herr => simp [h] at herr
  | case2 s i hlt herr ih =>
    rw [BluetoothLink.bleWriteLoop, if_pos hlt]
    simp only [h, Bool.false_eq_true, if_false, ih]
    have hn : (data.length - s + (CHUNK_SIZE - 1)) / CHUNK_SIZE
        = (data.length - (s + CHUNK_SIZE) + (CHUNK_SIZE - 1)) / CHUNK_SIZE + 1 := by
      simp only [CHUNK_SIZE]; omega
    rw [hn, List.range_succ_eq_map]
    simp only [List.map_cons, List.map_map, Nat.zero_mul, Nat.add_zero]
    congr 1
    apply List.map_congr_left
    intro j _
    simp only [Function.comp, CHUNK_SIZE]
    congr 3
    omega
  | case3 s i hge =>
    rw [BluetoothLink.bleWriteLoop, if_neg hge]
    have hn : (data.length - s + (CHUNK_SIZE - 1)) / CHUNK_SIZE = 0 := by
      simp only [CHUNK_SIZE]; omega
    simp [hn]

/-- When the poll after write number `k + 1` of the loop is the first to report a service
error, the loop issues exactly the first `k + 1` chunks of the rest of the payload. -/
theorem BluetoothLink.bleWriteLoop_firstError (data : QByteArray) (err : Nat → Bool) :
    ∀ (k s i : Nat), s + k * CHUNK_SIZE < data.length →
      err (i + (k + 1)) = true → (∀ j, 1 ≤ j → j ≤ k → err (i + j) = false) →
      BluetoothLink.bleWriteLoop data err s i =
        ((List.range (k + 1)).map (fun j => data.mid (s + j * CHUNK_SIZE) CHUNK_SIZE)).map
          (fun c => Effect.call (.writeCharacteristic c)) := by
  intro k
  induction k with
  | zero =>
    intro s i hlt herr _
    rw [BluetoothLink.bleWriteLoop, if_pos (by omega)]
    simp at herr
    simp [herr, List.range_succ]
  | succ k ih =>
    intro s i hlt herr hno
    have h1 : err (i + 1) = false := hno 1 (by omega) (by omega)
    rw [BluetoothLink.bleWriteLoop, if_pos (by simp only [CHUNK_SIZE] at hlt ⊢; omega)]
    simp only [h1, Bool.false_eq_true, if_false]
    rw [ih (s + CHUNK_SIZE) (i + 1) (by simp only [CHUNK_SIZE] at hlt ⊢; omega)
      (by rw [show i + 1 + (k + 1) = i + (k + 1 + 1) by omega]; exact herr)
      (by
        intro j hj1 hj2
        rw [show i + 1 + j = i + (j + 1) by omega]
        exact hno (j + 1) (by omega) (by omega))]
    rw [List.range_succ_eq_map (k + 1)]
    simp only [List.map_cons, List.map_map, Nat.zero_mul, Nat.add_zero]
    congr 1
    apply List.map_congr_left
    intro j _
    simp only [Function.comp, CHUNK_SIZE]
    congr 3
    omega

/-- On a BLE Ready link `_writeBytes` is the characteristic writes of `bleWriteData`
followed by one `bytesSent` signal. -/
theorem BluetoothLink.writeBytes_bleReady (self : BluetoothLink) (bytes : QByteArray)
    (err : Nat → Bool) (ret : Int) (hready : self.BleReady) :
    self._writeBytes bytes err ret =
      some ((if bytes.length > CHUNK_SIZE then BluetoothLink.bleWriteLoop bytes err 0 0
        else [Effect.call (.writeCharacteristic bytes)]) ++
          [Effect.emit (.bytesSent bytes)]) := by
  obtain ⟨hc, hs, ht, hr⟩ := hready
  obtain ⟨svc, hsvc⟩ := Option.isSome_iff_exists.mp hs
  simp only [BluetoothLink._writeBytes, BluetoothLink.bleWriteData, hc, hsvc, ht, hr, if_true,
    Option.isSome_none, Bool.false_eq_true, if_false, List.append_nil]
  split <;> simp

/-- The sizes of the consecutive `CHUNK_SIZE`-byte chunks of `N > 0` bytes. -/
theorem chunk_sizes_formula (N : Nat) (hpos : 0 < N) :
    (List.range ((N + (CHUNK_SIZE - 1)) / CHUNK_SIZE)).map
        (fun j => min CHUNK_SIZE (N - (0 + j * CHUNK_SIZE))) =
      List.replicate ((N + (CHUNK_SIZE - 1)) / CHUNK_SIZE - 1) CHUNK_SIZE ++
        [if N % CHUNK_SIZE = 0 then CHUNK_SIZE else N % CHUNK_SIZE] := by
  simp only [CHUNK_SIZE]
  apply List.ext_getElem
  · simp; omega
  · intro n h1 h2
    simp only [List.length_map, List.length_range] at h1
    simp only [List.getElem_map, List.getElem_range, List.getElem_append, List.length_replicate,
      List.getElem_replicate]
    split
    · omega
    · simp only [List.getElem_singleton]
      split <;> omega

/-- On a BLE Ready link with no service error, the characteristic writes of `_writeBytes`
are the consecutive chunks of a nonempty payload. -/
theorem BluetoothLink.characteristicWrites_writeBytes (self : BluetoothLink)
    (bytes : QByteArray) (err : Nat → Bool) (ret : Int) (hready : self.BleReady)
    (hno : ∀ k, err k = false) (hpos : 0 < bytes.length) :
    ∃ es, self._writeBytes bytes err ret = some es ∧
      characteristicWrites es =
        (List.range ((bytes.length + (CHUNK_SIZE - 1)) / CHUNK_SIZE)).map
          (fun j => bytes.mid (0 + j * CHUNK_SIZE) CHUNK_SIZE) := by
  refine ⟨_, BluetoothLink.writeBytes_bleReady self bytes err ret hready, ?_⟩
  rw [characteristicWrites_append]
  by_cases hlen : bytes.length > CHUNK_SIZE
  · rw [if_pos hlen, BluetoothLink.bleWriteLoop_noError bytes err hno,
      characteristicWrites_map_write]
    simp [characteristicWrites]
  · rw [if_neg hlen]
    have hn : (bytes.length + (CHUNK_SIZE - 1)) / CHUNK_SIZE = 1 := by
      simp only [CHUNK_SIZE] at hlen ⊢; omega
    have htake : List.take CHUNK_SIZE bytes = bytes :=
      List.take_of_length_le (by omega)
    simp [hn, characteristicWrites, List.range_succ, QByteArray.mid, htake]

/-! ## C1: chunk count and chunk sizes of a BLE write -/

/-- C1, as stated, fails for the empty payload: on a BLE Ready link with no service
error, `_writeBytes` of a 0-byte payload takes the single-write branch of
`bleWriteData` and issues one characteristic write (of the empty array), whereas
`ceil(0/20)` is 0. -/
theorem writeBytes_ble_empty_payload_issues_one_write :
    BluetoothLink.bleReadyLink.BleReady ∧
      ∃ es, BluetoothLink.bleReadyLink._writeBytes [] BluetoothLink.noServiceError 0 = some es ∧
        characteristicWrites es = [[]] ∧
        (characteristicWrites es).length ≠
          (([] : QByteArray).length + (CHUNK_SIZE - 1)) / CHUNK_SIZE := by
  refine ⟨by decide, _, rfl, ?_, ?_⟩ <;> decide

/-- C1, amended to nonempty payloads: for every payload of `N ≥ 1` bytes, `_writeBytes`
on a BLE Ready link with no chunk write reporting an error returns, having issued exactly
`ceil(N/20)` characteristic writes; the `j`-th one (from 0) carries the 20 bytes of the
payload from offset `20 * j` on (fewer at the end), so they are in the payload's order;
and their sizes are 20 for each write but the last, and `N mod 20`, or 20 when that is 0,
for the last. -/
theorem writeBytes_ble_chunk_count_and_sizes (self : BluetoothLink) (bytes : QByteArray)
    (err : Nat → Bool) (ret : Int) (hready : self.BleReady) (hno : ∀ k, err k = false)
    (hpos : 0 < bytes.length) :
    ∃ es, self._writeBytes bytes err ret = some es ∧
      (characteristicWrites es).length = (bytes.length + (CHUNK_SIZE - 1)) / CHUNK_SIZE ∧
      (∀ j, j < (characteristicWrites es).length →
        (characteristicWrites es)[j]? = some (bytes.mid (j * CHUNK_SIZE) CHUNK_SIZE)) ∧
      (characteristicWrites es).map List.length =
        List.replicate ((bytes.length + (CHUNK_SIZE - 1)) / CHUNK_SIZE - 1) CHUNK_SIZE ++
          [if bytes.length % CHUNK_SIZE = 0 then CHUNK_SIZE else bytes.length % CHUNK_SIZE] := by
  obtain ⟨es, hes, hws⟩ :=
    BluetoothLink.characteristicWrites_writeBytes self bytes err ret hready hno hpos
  refine ⟨es, hes, ?_, ?_, ?_⟩
  · rw [hws]; simp
  · intro j hj
    rw [hws] at hj ⊢
    simp only [List.length_map, List.length_range] at hj
    simp [List.getElem?_map, List.getElem?_range hj]
  · rw [hws, List.map_map, ← chunk_sizes_formula bytes.length hpos]
    apply List.map_congr_left
    intro j _
    simp [QByteArray.length_mid]

/-- C1, at a 45-byte payload: three characteristic writes of sizes 20, 20, 5. -/
theorem writeBytes_ble_chunk_count_and_sizes_witness :
    BluetoothLink.bleReadyLink.BleReady ∧ 0 < payload45.length ∧
      ∃ es, BluetoothLink.bleReadyLink._writeBytes payload45 BluetoothLink.noServiceError 0
          = some es ∧
        (characteristicWrites es).length = 3 ∧
        (characteristicWrites es).map List.length = [20, 20, 5] := by
  have hlen : payload45.length = 45 := by simp [payload45]
  obtain ⟨es, hes, hcount, _, hsizes⟩ :=
    writeBytes_ble_chunk_count_and_sizes BluetoothLink.bleReadyLink payload45
      BluetoothLink.noServiceError 0 (by decide) (fun _ => rfl) (by rw [hlen]; decide)
  refine ⟨by decide, by rw [hlen]; decide, es, hes, ?_, ?_⟩
  · rw [hcount, hlen]; decide
  · rw [hsizes, hlen]; decide

/-! ## C2: the `disconnected` signal of a teardown -/

/-- C2 at a BLE Ready link: `disconnect()` tears the BLE session down without emitting
any `disconnected` signal, and so does the teardown of `confirmedDescriptorWrite` when it
is reached (acknowledged value equal to `QByteArray("0000")`); only the classic branch of
`disconnect()` emits the signal, once. -/
theorem disconnect_ble_session_emits_no_disconnected :
    BluetoothLink.bleReadyLink.BleReady ∧
      BluetoothLink.bleReadyLink.disconnect.2 =
        [Effect.call .disconnectFromDevice, Effect.call .deleteService,
          Effect.call .deleteController] ∧
      disconnectedCount BluetoothLink.bleReadyLink.disconnect.2 = 0 ∧
      (BluetoothLink.bleReadyLink.confirmedDescriptorWrite
          BluetoothLink.bleReadyLink._notificationDescTx (QByteArray.ofText "0000")).map
        (fun r => (r.1._bleController, disconnectedCount r.2)) = some (none, 0) ∧
      BluetoothLink.classicReadyLink.ClassicReady ∧
      disconnectedCount BluetoothLink.classicReadyLink.disconnect.2 = 1 := by
  refine ⟨by decide, by decide, by decide, by decide, by decide, by decide⟩

/-! ## C3: the transport chosen by `connect` -/

/-- C3, as stated, fails: a descriptor with `isBle = false` whose name contains `"(BLE)"`
makes `_connect` create a BLE controller, and a descriptor with `isBle = true` whose name
does not contain it makes `_connect` open a classic socket. -/
theorem connect_ignores_isBle_flag :
    namedBleFlagClear.isBle = false ∧
      createsBleController (BluetoothLink.init._connect namedBleFlagClear).2 = true ∧
      plainNameFlagSet.isBle = true ∧
      opensClassicSocket (BluetoothLink.init._connect plainNameFlagSet).2 = true := by
  refine ⟨rfl, by decide, rfl, by decide⟩

/-- C3, amended: for every link state and every descriptor, `_connect` selects the
transport by the descriptor's name alone: it creates a BLE controller exactly when the
name contains `"(BLE)"` and opens a classic socket exactly when it does not; the `isBle`
field is not read. -/
theorem connect_selects_transport_by_name (self : BluetoothLink) (device : BluetoothData) :
    createsBleController (self._connect device).2 = QString.contains device.name "(BLE)" ∧
      opensClassicSocket (self._connect device).2 = !QString.contains device.name "(BLE)" := by
  unfold BluetoothLink._connect BluetoothLink._hardwareConnect
  cases hname : QString.contains device.name "(BLE)"
  · simp only [Bool.false_eq_true, if_false, BluetoothLink._createSocket]
    cases self._targetSocket <;> simp [createsBleController, opensClassicSocket]
  · simp only [if_true, BluetoothLink.createBleController]
    cases self._bleController <;> simp [createsBleController, opensClassicSocket]

/-! ## C4: writes on a link that is not Ready -/

/-- C4, as stated, fails: with `_connectState` false, a BLE session whose handles are
alive still gets a `bytesSent` signal for a payload of which nothing was written, a
classic socket that exists is still written to (and `bytesSent` follows a positive
return), and a BLE session that has no service handle yet sends `bleWriteData` through a
null `_bleService`. -/
theorem writeBytes_not_ready_is_not_a_silent_drop :
    BluetoothLink.bleErrorLink._connectState = false ∧
      BluetoothLink.bleErrorLink._writeBytes payload45 BluetoothLink.noServiceError 0 =
        some [Effect.emit (.bytesSent payload45)] ∧
      BluetoothLink.classicConnectingLink._connectState = false ∧
      BluetoothLink.classicConnectingLink._writeBytes payload45 BluetoothLink.noServiceError 45 =
        some [Effect.call (.socketWrite payload45), Effect.emit (.bytesSent payload45)] ∧
      BluetoothLink.bleConnectingLink._connectState = false ∧
      BluetoothLink.bleConnectingLink._writeBytes payload45 BluetoothLink.noServiceError 0 =
        none := by
  refine ⟨by decide, by decide, by decide, by decide, by decide, by decide⟩

/-- C4, amended: for every payload and every link state with `_connectState` false in
which a live controller has its service handle, `_writeBytes` returns, and its trace is a
BLE part followed by a classic part. The BLE part makes no native call, so no
characteristic write is issued, and it is empty when there is no controller. The classic
part is empty when there is no socket; a socket that exists is written to once with the
whole buffer, whatever `_connectState` says, and `bytesSent` follows that write exactly
when it returned a strictly positive count. So a link with no session at all does
nothing, and no `bytesSent` is emitted there. -/
theorem writeBytes_not_ready (self : BluetoothLink) (bytes : QByteArray)
    (err : Nat → Bool) (ret : Int) (hnr : self._connectState = false)
    (hsvc : self._bleController.isSome = true → self._bleService.isSome = true) :
    ∃ es pre, self._writeBytes bytes err ret = some es ∧
      es = pre ++
        (if self._targetSocket.isSome then
          Effect.call (.socketWrite bytes) ::
            (if ret > 0 then [Effect.emit (.bytesSent bytes)] else [])
        else []) ∧
      nativeCalls pre = [] ∧
      (self._bleController = none → pre = []) ∧
      characteristicWrites es = [] ∧
      (self._targetSocket = none → socketWrites es = []) ∧
      (self._targetSocket.isSome = true → socketWrites es = [bytes]) ∧
      (self._bleController = none → self._targetSocket = none → es = []) := by
  cases hc : self._bleController with
  | none =>
    cases ht : self._targetSocket with
    | none =>
      refine ⟨[], [], ?_⟩
      simp [BluetoothLink._writeBytes, hc, ht, characteristicWrites, socketWrites, nativeCalls]
    | some sock =>
      refine ⟨Effect.call (.socketWrite bytes) ::
        (if ret > 0 then [Effect.emit (.bytesSent bytes)] else []), [], ?_⟩
      by_cases hret : ret > 0 <;>
        simp [BluetoothLink._writeBytes, hc, ht, hret, characteristicWrites, socketWrites,
          nativeCalls]
  | some ctl =>
    have hs := hsvc (by simp [hc])
    obtain ⟨svc, hsvc'⟩ := Option.isSome_iff_exists.mp hs
    cases ht : self._targetSocket with
    | none =>
      refine ⟨[Effect.emit (.bytesSent bytes)], [Effect.emit (.bytesSent bytes)], ?_⟩
      simp [BluetoothLink._writeBytes, BluetoothLink.bleWriteData, hc, ht, hsvc', hnr,
        characteristicWrites, socketWrites, nativeCalls]
    | some sock =>
      refine ⟨Effect.emit (.bytesSent bytes) :: Effect.call (.socketWrite bytes) ::
        (if ret > 0 then [Effect.emit (.bytesSent bytes)] else []),
        [Effect.emit (.bytesSent bytes)], ?_⟩
      by_cases hret : ret > 0 <;>
        simp [BluetoothLink._writeBytes, BluetoothLink.bleWriteData, hc, ht, hsvc', hnr, hret,
          characteristicWrites, socketWrites, nativeCalls]

/-- C4, amended, at three links with `_connectState` false. On a BLE session whose
controller and service handle are alive (after a controller error) a write of 45 bytes
issues no characteristic write, no socket write, no native call at all. On a classic
session whose socket is not yet connected the trace is the one socket write alone when
it returns `-1`, and the socket write followed by `bytesSent` when it returns 45. -/
theorem writeBytes_not_ready_witness :
    (BluetoothLink.bleErrorLink._connectState = false ∧
      BluetoothLink.bleErrorLink._bleController.isSome = true ∧
      BluetoothLink.bleErrorLink._bleService.isSome = true ∧
      ∃ es, BluetoothLink.bleErrorLink._writeBytes payload45 BluetoothLink.noServiceError 0
          = some es ∧
        characteristicWrites es = [] ∧ socketWrites es = [] ∧ nativeCalls es = []) ∧
    (BluetoothLink.classicConnectingLink._connectState = false ∧
      BluetoothLink.classicConnectingLink._targetSocket.isSome = true ∧
      BluetoothLink.classicConnectingLink._writeBytes payload45
          BluetoothLink.noServiceError (-1) =
        some [Effect.call (.socketWrite payload45)] ∧
      BluetoothLink.classicConnectingLink._writeBytes payload45
          BluetoothLink.noServiceError 45 =
        some [Effect.call (.socketWrite payload45), Effect.emit (.bytesSent payload45)]) := by
  refine ⟨⟨by decide, by decide, by decide, ?_⟩, ⟨by decide, by decide, ?_, ?_⟩⟩
  · obtain ⟨es, pre, hes, hsplit, hpre, _, hchar, hsock, _, _⟩ :=
      writeBytes_not_ready BluetoothLink.bleErrorLink payload45 BluetoothLink.noServiceError 0
        (by decide) (by decide)
    refine ⟨es, hes, hchar, hsock (by decide), ?_⟩
    rw [hsplit]
    simpa [show BluetoothLink.bleErrorLink._targetSocket.isSome = false by decide] using hpre
  · obtain ⟨es, pre, hes, hsplit, _, hpre, _, _, _, _⟩ :=
      writeBytes_not_ready BluetoothLink.classicConnectingLink payload45
        BluetoothLink.noServiceError (-1) (by decide) (by decide)
    rw [hes, hsplit, hpre (by decide)]
    simp [show BluetoothLink.classicConnectingLink._targetSocket.isSome = true by decide]
  · obtain ⟨es, pre, hes, hsplit, _, hpre, _, _, _, _⟩ :=
      writeBytes_not_ready BluetoothLink.classicConnectingLink payload45
        BluetoothLink.noServiceError 45 (by decide) (by decide)
    rw [hes, hsplit, hpre (by decide)]
    simp [show BluetoothLink.classicConnectingLink._targetSocket.isSome = true by decide]

/-! ## C5: writes on a classic Ready link -/

/-- C5: for every payload, `_writeBytes` on a classic Ready link returns after exactly
one socket write, which carries the whole buffer, and no characteristic write; its trace
is that write followed by one `bytesSent` signal with the whole buffer when the write
returned a strictly positive count, and by nothing otherwise. So `bytesSent` is emitted
(once, with the whole buffer) if and only if the count is positive, and a count of 0 or
less emits neither `bytesSent` nor `communicationError`. -/
theorem writeBytes_classic_single_socket_write (self : BluetoothLink) (bytes : QByteArray)
    (err : Nat → Bool) (ret : Int) (hready : self.ClassicReady) :
    ∃ es, self._writeBytes bytes err ret = some es ∧
      es = Effect.call (.socketWrite bytes) ::
        (if ret > 0 then [Effect.emit (.bytesSent bytes)] else []) ∧
      socketWrites es = [bytes] ∧
      characteristicWrites es = [] ∧
      (bytesSentEvents es = [bytes] ↔ ret > 0) ∧
      (ret ≤ 0 → emitted es = []) ∧
      emitsCommunicationError es = false := by
  obtain ⟨ht, hc, _⟩ := hready
  obtain ⟨sock, hsock⟩ := Option.isSome_iff_exists.mp ht
  refine ⟨_, ?_, rfl, ?_⟩
  · simp [BluetoothLink._writeBytes, hc, hsock]
  · by_cases hret : ret > 0
    · simp [hret, socketWrites, characteristicWrites, bytesSentEvents, emitted,
        emitsCommunicationError]
    · simp [hret, socketWrites, characteristicWrites, bytesSentEvents, emitted,
        emitsCommunicationError]

/-- C5 at a socket write that returns 0: one socket write with the whole 45-byte buffer,
no `bytesSent` and no `communicationError`. -/
theorem writeBytes_classic_single_socket_write_witness :
    BluetoothLink.classicReadyLink.ClassicReady ∧
      ∃ es, BluetoothLink.classicReadyLink._writeBytes payload45
          BluetoothLink.noServiceError 0 = some es ∧
        es = [Effect.call (.socketWrite payload45)] ∧
        emitted es = [] := by
  obtain ⟨es, hes, htrace, _, _, _, hnone, _⟩ :=
    writeBytes_classic_single_socket_write BluetoothLink.classicReadyLink payload45
      BluetoothLink.noServiceError 0 (by decide)
  exact ⟨by decide, es, hes, by simpa using htrace, hnone (by decide)⟩

/-! ## C6: a service error in the middle of a chunked write -/

/-- C6: for every payload longer than 20 bytes written on a BLE Ready link, if the poll
after the `k`-th chunk write (`1 ≤ k`, the `k`-th chunk existing) is the first to report
a service error, `_writeBytes` returns having issued exactly `k` characteristic writes,
the first `k` chunks of the payload in order, so the bytes from offset `20 * k` on are
dropped; and it emits exactly one `bytesSent` signal, which carries the entire original
buffer. -/
theorem writeBytes_ble_stops_at_first_error (self : BluetoothLink) (bytes : QByteArray)
    (err : Nat → Bool) (ret : Int) (k : Nat) (hready : self.BleReady)
    (hlong : CHUNK_SIZE < bytes.length) (hk : 1 ≤ k)
    (hchunk : (k - 1) * CHUNK_SIZE < bytes.length)
    (herr : err k = true) (hfirst : ∀ j, 1 ≤ j → j < k → err j = false) :
    ∃ es, self._writeBytes bytes err ret = some es ∧
      (characteristicWrites es).length = k ∧
      characteristicWrites es =
        (List.range k).map (fun j => bytes.mid (j * CHUNK_SIZE) CHUNK_SIZE) ∧
      bytesSentEvents es = [bytes] ∧
      emitted es = [Signal.bytesSent bytes] := by
  obtain ⟨m, rfl⟩ : ∃ m, k = m + 1 := ⟨k - 1, by omega⟩
  have hloop := BluetoothLink.bleWriteLoop_firstError bytes err m 0 0
    (by simpa using hchunk) (by simpa using herr)
    (by intro j h1 h2; simpa using hfirst j h1 (by omega))
  refine ⟨_, BluetoothLink.writeBytes_bleReady self bytes err ret hready, ?_⟩
  rw [if_pos hlong, hloop]
  simp only [Nat.zero_add]
  refine ⟨?_, ?_, ?_, ?_⟩
  · rw [characteristicWrites_append, characteristicWrites_map_write]
    simp [characteristicWrites]
  · rw [characteristicWrites_append, characteristicWrites_map_write]
    simp [characteristicWrites]
  · rw [bytesSentEvents_append, bytesSentEvents_map_write]
    simp [bytesSentEvents]
  · rw [emitted_append, emitted_map_write]
    simp [emitted]

/-- C6 at a 45-byte payload whose second chunk write reports the error: two writes, of
the bytes `0..19` and `20..39`, and one `bytesSent` with all 45 bytes. -/
theorem writeBytes_ble_stops_at_first_error_witness :
    BluetoothLink.bleReadyLink.BleReady ∧ CHUNK_SIZE < payload45.length ∧
      BluetoothLink.errorAtSecondWrite 2 = true ∧
      ∃ es, BluetoothLink.bleReadyLink._writeBytes payload45
          BluetoothLink.errorAtSecondWrite 0 = some es ∧
        (characteristicWrites es).length = 2 ∧
        bytesSentEvents es = [payload45] := by
  have hlen : payload45.length = 45 := by simp [payload45]
  obtain ⟨es, hes, hcount, _, hsent, _⟩ :=
    writeBytes_ble_stops_at_first_error BluetoothLink.bleReadyLink payload45
      BluetoothLink.errorAtSecondWrite 0 2 (by decide) (by rw [hlen]; decide) (by decide)
      (by rw [hlen]; decide) (by decide)
      (by
        intro j h1 h2
        have hj : j = 1 := by omega
        subst hj
        decide)
  exact ⟨by decide, by rw [hlen]; decide, by decide, es, hes, hcount, hsent⟩

/-! ## C7: `disconnect` without a session -/

/-- C7: for every link state with no BLE controller and no classic socket,
`disconnect()` produces no effect at all (no signal, no native call) and leaves the link
as it was but for `_connectState`, which is false afterwards: no controller, no socket.
And for every link state `other` whatsoever, a second `disconnect()` right after a first
one produces no effect. -/
theorem disconnect_without_session_is_noop (self other : BluetoothLink)
    (hc : self._bleController = none) (ht : self._targetSocket = none) :
    self.disconnect.2 = [] ∧
      self.disconnect.1 = { self with _connectState := false } ∧
      self.disconnect.1._bleController = none ∧
      self.disconnect.1._targetSocket = none ∧
      self.disconnect.1._connectState = false ∧
      other.disconnect.1.disconnect.2 = [] := by
  have hnoop : ∀ s : BluetoothLink, s._bleController = none → s._targetSocket = none →
      s.disconnect.2 = [] := by
    intro s h1 h2
    simp [BluetoothLink.disconnect, h1, h2]
  have hafter : ∀ s : BluetoothLink,
      s.disconnect.1._bleController = none ∧ s.disconnect.1._targetSocket = none := by
    intro s
    cases hs : s._bleController <;> simp [BluetoothLink.disconnect, hs]
  refine ⟨hnoop self hc ht, ?_, (hafter self).1, (hafter self).2, rfl,
    hnoop _ (hafter other).1 (hafter other).2⟩
  simp only [BluetoothLink.disconnect, hc, Option.isSome_none, Bool.false_eq_true, if_false]
  rw [← ht]

/-- C7 at the initial link, and for a second `disconnect()` of a BLE Ready link. -/
theorem disconnect_without_session_is_noop_witness :
    BluetoothLink.init._bleController = none ∧ BluetoothLink.init._targetSocket = none ∧
      BluetoothLink.init.disconnect.2 = [] ∧
      BluetoothLink.init.disconnect.1._connectState = false ∧
      BluetoothLink.bleReadyLink.disconnect.1.disconnect.2 = [] := by
  obtain ⟨h1, _, _, _, h5, h6⟩ :=
    disconnect_without_session_is_noop BluetoothLink.init BluetoothLink.bleReadyLink rfl rfl
  exact ⟨rfl, rfl, h1, h5, h6⟩

/-! ## C8: the discovered-device list has no duplicates -/

theorem BluetoothData.operatorEq_copy (a data : BluetoothData) (uninit : Bool) :
    a.operatorEq (data.copy uninit) = a.operatorEq data := rfl

theorem BluetoothData.operatorEq_comm (a b : BluetoothData) :
    a.operatorEq b = b.operatorEq a := by
  simp only [BluetoothData.operatorEq, Bool.beq_comm (a := a.name), Bool.beq_comm (a := a.address)]

/-- What `deviceDiscovered` does to the device list: nothing, or it appends a copy of a
descriptor the list did not contain. -/
theorem BluetoothConfiguration.deviceDiscovered_deviceList (self : BluetoothConfiguration)
    (info : QBluetoothDeviceInfo) (uninit : Bool) :
    (self.deviceDiscovered info uninit).1._deviceList = self._deviceList ∨
      ∃ data, QList.contains self._deviceList data = false ∧
        (self.deviceDiscovered info uninit).1._deviceList =
          self._deviceList ++ [data.copy uninit] := by
  unfold BluetoothConfiguration.deviceDiscovered
  by_cases hvalid : (!info.name.isEmpty && info.isValid) = true
  · simp only [hvalid, if_true]
    cases hnew : QList.contains self._deviceList
        { isBle := (info.coreConfigurations &&& LowEnergyCoreConfiguration) != 0
          name := info.name ++
            (if ((info.coreConfigurations &&& LowEnergyCoreConfiguration) != 0) = true
              then " (BLE)" else "")
          address := info.address }
    · right
      exact ⟨_, hnew, by simp⟩
    · left
      simp
  · left
    simp only [hvalid, Bool.false_eq_true, if_false]

/-- One scanner event keeps the device list free of `operator==` duplicates. -/
theorem BluetoothConfiguration.step_preserves_noDuplicates (self : BluetoothConfiguration)
    (ev : ScanEvent)
    (h : self._deviceList.Pairwise (fun a b => a.operatorEq b = false)) :
    (self.step ev).1._deviceList.Pairwise (fun a b => a.operatorEq b = false) := by
  cases ev with
  | startScan => simp [BluetoothConfiguration.step, BluetoothConfiguration.startScan]
  | stopScan =>
    simp only [BluetoothConfiguration.step, BluetoothConfiguration.stopScan]
    split <;> exact h
  | doneScanning =>
    simp only [BluetoothConfiguration.step, BluetoothConfiguration.doneScanning]
    split <;> exact h
  | deviceDiscovered info uninit =>
    simp only [BluetoothConfiguration.step]
    rcases BluetoothConfiguration.deviceDiscovered_deviceList self info uninit with
      hsame | ⟨data, hnew, happ⟩
    · rw [hsame]; exact h
    · rw [happ, List.pairwise_append]
      simp only [QList.contains, List.any_eq_false] at hnew
      refine ⟨h, List.pairwise_singleton _ _, ?_⟩
      intro a ha b hb
      rw [List.mem_singleton] at hb
      subst hb
      rw [BluetoothData.operatorEq_copy]
      simpa using hnew a ha

/-- A run of the scanner keeps the device list free of `operator==` duplicates. -/
theorem BluetoothConfiguration.run_preserves_noDuplicates (evs : List ScanEvent) :
    ∀ self : BluetoothConfiguration,
      self._deviceList.Pairwise (fun a b => a.operatorEq b = false) →
      (self.run evs)._deviceList.Pairwise (fun a b => a.operatorEq b = false) := by
  induction evs with
  | nil => intro self h; exact h
  | cons ev rest ih =>
    intro self h
    exact ih _ (BluetoothConfiguration.step_preserves_noDuplicates self ev h)

/-- C8: in every scanner state reached from the initial `BluetoothConfiguration` by any
sequence of `startScan`, `stopScan`, `doneScanning` and `deviceDiscovered` events, no two
entries of `_deviceList` at different positions compare equal under
`BluetoothData::operator==` (same name and same address), in either order of the
operands, whatever devices are reported and however often. -/
theorem deviceList_never_holds_equal_descriptors (uninit : Bool) (evs : List ScanEvent) :
    ((BluetoothConfiguration.init uninit).run evs)._deviceList.Pairwise
        (fun a b => a.operatorEq b = false) ∧
      ((BluetoothConfiguration.init uninit).run evs)._deviceList.Pairwise
        (fun a b => b.operatorEq a = false) := by
  have h := BluetoothConfiguration.run_preserves_noDuplicates evs
    (BluetoothConfiguration.init uninit) (by simp [BluetoothConfiguration.init])
  refine ⟨h, h.imp ?_⟩
  intro a b hab
  rw [BluetoothData.operatorEq_comm]
  exact hab

/-! ## C9: selecting a name that was not discovered -/

theorem BluetoothConfiguration.setDevNameLoop_absent (self : BluetoothConfiguration)
    (name : String) (list : List BluetoothData) (h : ∀ d ∈ list, d.name ≠ name) :
    self.setDevNameLoop name list = (self, []) := by
  induction list with
  | nil => rfl
  | cons d rest ih =>
    rw [BluetoothConfiguration.setDevNameLoop, if_neg (h d (List.mem_cons_self d rest))]
    exact ih (fun x hx => h x (List.mem_cons_of_mem d hx))

/-- C9: for every scanner state and every name that is not the name of any descriptor of
its `_deviceList`, `setDevName(name)` leaves the whole configuration as it was, so the
active descriptor keeps its name, address and `isBle`, and it emits no signal: neither
`devNameChanged` nor `addressChanged`. -/
theorem setDevName_absent_name_changes_nothing (self : BluetoothConfiguration)
    (name : String) (habsent : ∀ d ∈ self._deviceList, d.name ≠ name) :
    (self.setDevName name).1 = self ∧
      (self.setDevName name).1._device = self._device ∧
      (self.setDevName name).2 = [] := by
  have h := BluetoothConfiguration.setDevNameLoop_absent self name self._deviceList habsent
  simp only [BluetoothConfiguration.setDevName, h, and_self]

/-- C9 on a scanned list holding `"Drone-A"` and `"Drone-A (BLE)"`, with `"Drone-A"`
selected: selecting `"Drone-B"` keeps `"Drone-A"` and emits nothing. -/
theorem setDevName_absent_name_changes_nothing_witness :
    (∀ d ∈ BluetoothConfiguration.scanned._deviceList, d.name ≠ "Drone-B") ∧
      BluetoothConfiguration.scanned._nameList = ["Drone-A", "Drone-A (BLE)"] ∧
      (BluetoothConfiguration.scanned.setDevName "Drone-B").1._device =
        { name := "Drone-A", address := "AA:BB:CC", isBle := false } ∧
      (BluetoothConfiguration.scanned.setDevName "Drone-B").2 = [] := by
  obtain ⟨_, hdev, hsig⟩ :=
    setDevName_absent_name_changes_nothing BluetoothConfiguration.scanned "Drone-B"
      (by decide)
  refine ⟨by decide, by decide, ?_, hsig⟩
  rw [hdev]
  decide

/-! ## C10: BLE session and classic session are not alive together -/

/-- An admitted event keeps at most one of the two session handles alive. -/
theorem BluetoothLink.step_preserves_exclusive (s : BluetoothLink) (ev : LinkEvent)
    (r : BluetoothLink × List Effect)
    (hinv : s._bleController = none ∨ s._targetSocket = none)
    (hadm : s.connectAdmitted ev = true) (hstep : s.step ev = some r) :
    r.1._bleController = none ∨ r.1._targetSocket = none := by
  cases ev with
  | connect device =>
    simp only [BluetoothLink.step, BluetoothLink._connect, BluetoothLink._hardwareConnect,
      Option.some.injEq] at hstep
    simp only [BluetoothLink.connectAdmitted] at hadm
    subst hstep
    cases hname : QString.contains device.name "(BLE)"
    · simp only [hname, Bool.false_eq_true, if_false] at hadm ⊢
      left
      simpa [BluetoothLink._createSocket] using hadm
    · simp only [hname, if_true] at hadm ⊢
      right
      simpa [BluetoothLink.createBleController] using hadm
  | disconnect =>
    simp only [BluetoothLink.step, Option.some.injEq] at hstep
    subst hstep
    right
    simp only [BluetoothLink.disconnect]
    split <;> rfl
  | write bytes err ret =>
    simp only [BluetoothLink.step, Option.map_eq_some'] at hstep
    obtain ⟨es, _, rfl⟩ := hstep
    exact hinv
  | bleServiceDiscovered u =>
    simp only [BluetoothLink.step, BluetoothLink.bleServiceDiscovered,
      Option.some.injEq] at hstep
    subst hstep
    split <;> exact hinv
  | bleServiceDiscoveryFinished created =>
    simp only [BluetoothLink.step, BluetoothLink.bleServiceDiscoveryFinished,
      Option.map_eq_some'] at hstep
    obtain ⟨a, ha, rfl⟩ := hstep
    have hsame : a.1._bleController = s._bleController ∧
        a.1._targetSocket = s._targetSocket := by
      split at ha
      · split at ha
        · exact absurd ha (by simp)
        · simp only [Option.some.injEq] at ha
          subst ha
          exact ⟨rfl, rfl⟩
      · simp only [Option.some.injEq] at ha
        subst ha
        exact ⟨rfl, rfl⟩
    split <;> simpa [hsame.1, hsame.2] using hinv
  | bleErrorOccured e =>
    simp only [BluetoothLink.step, BluetoothLink.bleErrorOccured, Option.some.injEq] at hstep
    subst hstep
    exact hinv
  | bleStateChanged =>
    simp only [BluetoothLink.step, BluetoothLink.bleStateChanged, Option.some.injEq] at hstep
    subst hstep
    exact hinv
  | bleConnected =>
    simp only [BluetoothLink.step, BluetoothLink.bleConnected] at hstep
    split at hstep
    · exact absurd hstep (by simp)
    · simp only [Option.some.injEq] at hstep
      subst hstep
      exact hinv
  | bleDisconnected =>
    simp only [BluetoothLink.step, BluetoothLink.bleDisconnected, Option.some.injEq] at hstep
    subst hstep
    split
    · left; rfl
    · exact hinv
  | bleServiceStateChanged st ch =>
    simp only [BluetoothLink.step, BluetoothLink.bleServiceStateChanged] at hstep
    split at hstep
    · split at hstep
      · exact absurd hstep (by simp)
      · split at hstep <;>
        · simp only [Option.some.injEq] at hstep
          subst hstep
          exact hinv
    · simp only [Option.some.injEq] at hstep
      subst hstep
      exact hinv
  | bleReceiveData v =>
    simp only [BluetoothLink.step, BluetoothLink.bleReceiveData, Option.some.injEq] at hstep
    subst hstep
    exact hinv
  | confirmedDescriptorWrite d v =>
    simp only [BluetoothLink.step, BluetoothLink.confirmedDescriptorWrite] at hstep
    split at hstep
    · split at hstep
      · split at hstep
        · exact absurd hstep (by simp)
        · simp only [Option.some.injEq] at hstep
          subst hstep
          left; rfl
      · simp only [Option.some.injEq] at hstep
        subst hstep
        exact hinv
    · simp only [Option.some.injEq] at hstep
      subst hstep
      exact hinv
  | readBytes p =>
    simp only [BluetoothLink.step, BluetoothLink.readBytes, Option.some.injEq] at hstep
    subst hstep
    split <;> exact hinv
  | deviceConnected =>
    simp only [BluetoothLink.step, BluetoothLink.deviceConnected, Option.some.injEq] at hstep
    subst hstep
    exact hinv
  | deviceDisconnected =>
    simp only [BluetoothLink.step, BluetoothLink.deviceDisconnected,
      Option.some.injEq] at hstep
    subst hstep
    exact hinv
  | deviceError e =>
    simp only [BluetoothLink.step, BluetoothLink.deviceError] at hstep
    split at hstep
    · exact absurd hstep (by simp)
    · simp only [Option.some.injEq] at hstep
      subst hstep
      exact hinv

/-- A run of admitted events keeps at most one of the two session handles alive. -/
theorem BluetoothLink.run_preserves_exclusive (evs : List LinkEvent) :
    ∀ s t : BluetoothLink, (s._bleController = none ∨ s._targetSocket = none) →
      s.runAdmitted evs = true → s.run evs = some t →
      t._bleController = none ∨ t._targetSocket = none := by
  induction evs with
  | nil =>
    intro s t hinv _ hrun
    simp only [BluetoothLink.run, Option.some.injEq] at hrun
    subst hrun
    exact hinv
  | cons ev rest ih =>
    intro s t hinv hadm hrun
    simp only [BluetoothLink.runAdmitted, Bool.and_eq_true] at hadm
    simp only [BluetoothLink.run] at hrun
    cases hstep : s.step ev with
    | none => simp [hstep] at hrun
    | some r =>
      simp only [hstep] at hrun hadm
      exact ih r.1 t (BluetoothLink.step_preserves_exclusive s ev r hinv hadm.1 hstep)
        hadm.2 hrun

/-- C10, as stated, fails: a connect to a classic descriptor followed, with no disconnect
in between, by a connect to a BLE descriptor leaves the socket handle and the controller
handle both non-null, since `createBleController` releases only a previous controller and
`_createSocket` only a previous socket. -/
theorem connect_twice_leaves_both_sessions_alive :
    (BluetoothLink.init.run connectClassicThenBle).map
        (fun s => (s._bleController.isSome, s._targetSocket.isSome)) = some (true, true) := by
  decide

/-- C10, amended: in every link state reached from the initial `BluetoothLink` by a
sequence of connect (any descriptor), disconnect, write and native event handlers in
which each connect to a descriptor named as BLE is issued while no classic socket is
alive and each connect to any other descriptor while no BLE controller is alive (as is
the case when connects are separated by `disconnect()`, or all go to one transport), the
controller handle and the socket handle are never both non-null. -/
theorem sessions_mutually_exclusive (evs : List LinkEvent) (s : BluetoothLink)
    (hadm : BluetoothLink.init.runAdmitted evs = true)
    (hrun : BluetoothLink.init.run evs = some s) :
    ¬ (s._bleController.isSome = true ∧ s._targetSocket.isSome = true) := by
  have h := BluetoothLink.run_preserves_exclusive evs BluetoothLink.init s (Or.inl rfl)
    hadm hrun
  rintro ⟨hc, ht⟩
  rcases h with h | h
  · simp [h] at hc
  · simp [h] at ht

/-- C10, amended, on a classic session followed, after `disconnect()`, by a BLE session
brought up to Ready: the run is admitted, it ends in the BLE Ready link `bleReadyLink`,
and there the two handles are not both alive. -/
theorem sessions_mutually_exclusive_witness :
    BluetoothLink.init.runAdmitted classicThenBleSession = true ∧
      BluetoothLink.init.run classicThenBleSession = some BluetoothLink.bleReadyLink ∧
      ¬ (BluetoothLink.bleReadyLink._bleController.isSome = true ∧
        BluetoothLink.bleReadyLink._targetSocket.isSome = true) :=
  ⟨by decide, by decide,
    sessions_mutually_exclusive classicThenBleSession BluetoothLink.bleReadyLink
      (by decide) (by decide)⟩

/-! ## C11: the chunks of a BLE write reassemble the payload -/

/-- With no service error the chunks the loop of `bleWriteData` issues from offset
`sentBytes` on are each at most `CHUNK_SIZE` long and concatenate to the payload from
that offset on. -/
theorem BluetoothLink.bleWriteLoop_noError_flatten (data : QByteArray) (err : Nat → Bool)
    (h : ∀ k, err k = false) (s i : Nat) :
    (characteristicWrites (BluetoothLink.bleWriteLoop data err s i)).flatten = data.drop s ∧
      ∀ w ∈ characteristicWrites (BluetoothLink.bleWriteLoop data err s i),
        w.length ≤ CHUNK_SIZE := by
  induction s, i using BluetoothLink.bleWriteLoop.induct data err with
  | case1 s i hlt herr => simp [h] at herr
  | case2 s i hlt herr ih =>
    rw [BluetoothLink.bleWriteLoop, if_pos hlt]
    simp only [h, Bool.false_eq_true, if_false, characteristicWrites, List.flatten_cons,
      ih.1, List.mem_cons]
    refine ⟨?_, ?_⟩
    · rw [QByteArray.mid, ← List.drop_drop, List.take_append_drop]
    · rintro w (rfl | hw)
      · rw [QByteArray.length_mid]
        exact Nat.min_le_left _ _
      · exact ih.2 w hw
  | case3 s i hge =>
    rw [BluetoothLink.bleWriteLoop, if_neg hge]
    simp only [characteristicWrites, List.flatten_nil, List.not_mem_nil, false_implies,
      implies_true, and_true]
    exact (List.drop_eq_nil_of_le (by omega)).symm

/-- C11: for every payload, `_writeBytes` on a BLE Ready link with no chunk write
reporting an error returns, every characteristic write it issued carries at most 20
bytes, the concatenation of the issued writes in issue order is the original payload,
and a payload of at most 20 bytes is issued as exactly one write, equal to the payload. -/
theorem writeBytes_ble_chunks_reassemble_payload (self : BluetoothLink) (bytes : QByteArray)
    (err : Nat → Bool) (ret : Int) (hready : self.BleReady) (hno : ∀ k, err k = false) :
    ∃ es, self._writeBytes bytes err ret = some es ∧
      (∀ w ∈ characteristicWrites es, w.length ≤ CHUNK_SIZE) ∧
      (characteristicWrites es).flatten = bytes ∧
      (bytes.length ≤ CHUNK_SIZE → characteristicWrites es = [bytes]) := by
  refine ⟨_, BluetoothLink.writeBytes_bleReady self bytes err ret hready, ?_⟩
  rw [characteristicWrites_append]
  have hloop := BluetoothLink.bleWriteLoop_noError_flatten bytes err hno 0 0
  by_cases hlen : bytes.length > CHUNK_SIZE
  · rw [if_pos hlen]
    simp only [characteristicWrites, List.append_nil]
    exact ⟨hloop.2, by simpa using hloop.1, fun hle => absurd hlen (by omega)⟩
  · rw [if_neg hlen]
    simp only [characteristicWrites, List.append_nil, List.mem_singleton, List.flatten_cons,
      List.flatten_nil, implies_true, and_true]
    rintro w rfl
    omega

/-- C11 at the 45-byte payload: the writes are at most 20 bytes each and concatenate to
the payload; the hypothesis of the single-write case does not apply. -/
theorem writeBytes_ble_chunks_reassemble_payload_witness :
    BluetoothLink.bleReadyLink.BleReady ∧
      ∃ es, BluetoothLink.bleReadyLink._writeBytes payload45 BluetoothLink.noServiceError 0
          = some es ∧
        (∀ w ∈ characteristicWrites es, w.length ≤ 20) ∧
        (characteristicWrites es).flatten = payload45 := by
  obtain ⟨es, hes, hsize, hcat, _⟩ :=
    writeBytes_ble_chunks_reassemble_payload BluetoothLink.bleReadyLink payload45
      BluetoothLink.noServiceError 0 (by decide) (fun _ => rfl)
  exact ⟨by decide, es, hes, hsize, hcat⟩

/-! ## C12: the acknowledgment of a notification-disable write -/

/-- C12 at a BLE Ready link: the acknowledgment of a write of the 2-byte disable pattern
`0x00 0x00` to the valid notification descriptor changes nothing, since the slot compares
the value with `QByteArray("0000")`, the four characters `'0'`, and not with the two
bytes `fromHex("0000")`: controller and service stay alive and `_connectState` stays
true. And for the value the slot does accept, the handles are released but
`_connectState` is still true, whereas `disconnect()` clears it. -/
theorem confirmedDescriptorWrite_misses_disable_pattern :
    BluetoothLink.bleReadyLink.BleReady ∧
      BluetoothLink.bleReadyLink._notificationDescTx.isValid = true ∧
      BluetoothLink.disablePattern = QByteArray.fromHex "0000" ∧
      BluetoothLink.bleReadyLink.confirmedDescriptorWrite
          BluetoothLink.bleReadyLink._notificationDescTx BluetoothLink.disablePattern =
        some (BluetoothLink.bleReadyLink, []) ∧
      QByteArray.ofText "0000" = [0x30, 0x30, 0x30, 0x30] ∧
      (BluetoothLink.bleReadyLink.confirmedDescriptorWrite
          BluetoothLink.bleReadyLink._notificationDescTx (QByteArray.ofText "0000")).map
        (fun r => (r.1._bleController.isSome, r.1._bleService.isSome, r.1._connectState)) =
          some (false, false, true) ∧
      BluetoothLink.bleReadyLink.disconnect.1._connectState = false := by
  refine ⟨by decide, by decide, by decide, by decide, by decide, by decide, by decide⟩

/-! ## C13: the end of service discovery -/

/-- C13, as stated, fails: when service discovery finishes on a BLE session that has not
seen the serial-emulation service, `bleServiceDiscoveryFinished` only logs and returns,
emitting no `communicationError`; and when the service was seen but
`createServiceObject` hands back no object, there is no service handle and no detail
discovery. -/
theorem serviceDiscoveryFinished_without_service_emits_nothing :
    BluetoothLink.bleConnectingLink._bleController.isSome = true ∧
      BluetoothLink.bleConnectingLink._isUartFound = false ∧
      BluetoothLink.bleConnectingLink.bleServiceDiscoveryFinished none =
        some (BluetoothLink.bleConnectingLink, []) ∧
      (BluetoothLink.bleConnectingLink.bleServiceDiscoveryFinished none).map
        (fun r => emitsCommunicationError r.2) = some false ∧
      BluetoothLink.bleUartFoundLink._isUartFound = true ∧
      BluetoothLink.bleUartFoundLink.bleServiceDiscoveryFinished none =
        some (BluetoothLink.bleUartFoundLink,
          [Effect.call (.createServiceObject UARTSERVICEUUID)]) := by
  refine ⟨by decide, by decide, by decide, by decide, by decide, by decide⟩

/-- C13, amended: for every BLE session (controller alive), `bleServiceDiscoveryFinished`
returns and emits no signal at all, so no `communicationError`, and leaves the link as it
was but for the service handle (`_connectState` is not touched, a link that is not
connected stays so). Without the serial-emulation service having been discovered it
creates no service object and there is no service handle afterwards. When the service
was discovered it calls `createServiceObject` exactly once, the service handle is what
that call returned, and `discoverDetails` is started exactly once if that is an object
and not at all if it is null. -/
theorem serviceDiscoveryFinished_outcome (self : BluetoothLink)
    (created : Option QLowEnergyService) (hc : self._bleController.isSome = true) :
    ∃ r, self.bleServiceDiscoveryFinished created = some r ∧
      emitted r.2 = [] ∧
      emitsCommunicationError r.2 = false ∧
      r.1 = { self with _bleService := if self._isUartFound then created else none } ∧
      r.1._connectState = self._connectState ∧
      (nativeCalls r.2).count (.createServiceObject UARTSERVICEUUID) =
        (if self._isUartFound then 1 else 0) ∧
      (nativeCalls r.2).count .discoverDetails =
        (if self._isUartFound && created.isSome then 1 else 0) := by
  obtain ⟨ctl, hctl⟩ := Option.isSome_iff_exists.mp hc
  cases hfound : self._isUartFound <;> cases hsvc : self._bleService <;> cases created <;>
    simp [BluetoothLink.bleServiceDiscoveryFinished, hctl, hfound, hsvc, emitted,
      emitsCommunicationError, nativeCalls, List.count_cons]

/-- C13, amended, on a BLE session that has seen the service and is handed a service
object: the handle is that object, created once, with detail discovery started once. -/
theorem serviceDiscoveryFinished_outcome_witness :
    BluetoothLink.bleUartFoundLink._bleController.isSome = true ∧
      ∃ r, BluetoothLink.bleUartFoundLink.bleServiceDiscoveryFinished
          (some { serviceUuid := UARTSERVICEUUID }) = some r ∧
        emitted r.2 = [] ∧
        r.1._bleService = some { serviceUuid := UARTSERVICEUUID } ∧
        r.1._connectState = false ∧
        (nativeCalls r.2).count (.createServiceObject UARTSERVICEUUID) = 1 ∧
        (nativeCalls r.2).count .discoverDetails = 1 := by
  obtain ⟨r, hr, hemit, _, hstate, hconn, hcreate, hdetails⟩ :=
    serviceDiscoveryFinished_outcome BluetoothLink.bleUartFoundLink
      (some { serviceUuid := UARTSERVICEUUID }) (by decide)
  refine ⟨by decide, r, hr, hemit, ?_, ?_, ?_, ?_⟩
  · rw [hstate]; decide
  · rw [hconn]; decide
  · rw [hcreate]; decide
  · rw [hdetails]; decide
